import Mathlib

/-!
Verification of the mood interpretation and trend aggregation backend
(src/main.py) against its specification.

Modelling conventions: Python strings are lists of characters, Python
floats are rationals (with the one square-root comparison carried out
over the reals in the theorems), Firestore collections are Lean lists,
and each route handler is a pure function from its parsed inputs and
the current store to a response together with the updated store.  The
two classifier calls are passed to `analyze_mood` as their outcomes
(`Except`): an exception raised by a call makes the handler's
except-branch return the error, so the outcome type records exactly
what the handler can observe.
-/

/-- A Python string, as its list of characters. -/
abbrev Str := List Char

/-- Python `str.lower()`, character-wise (all characters appearing in
this development are ASCII letters, digits, punctuation or U+2019). -/
def lowerStr (s : Str) : Str := s.map Char.toLower

/-- `p` is a prefix of `t` (helper for the substring test). -/
def isPre : Str → Str → Bool
  | [], _ => true
  | _ :: _, [] => false
  | a :: p, b :: t => a == b && isPre p t

/-- Python's substring test `p in t`. -/
def containsSub (t p : Str) : Bool :=
  isPre p t ||
    match t with
    | [] => false
    | _ :: t' => containsSub t' p

/-- `round(x, 2)` from main.py: rounding to two decimal places.  The
spec (§4.2) allows banker's or half-up rounding; `round` here is
Mathlib's half-up rounding. -/
def round2 (q : ℚ) : ℚ := (round (q * 100) : ℤ) / 100

/-- A stored timestamp: the calendar-date component that `to_date` in
main.py extracts (as its `%Y-%m-%d` string), plus a time-of-day
remainder that `to_date` discards. -/
structure Timestamp where
  date : Str
  tod : Nat
deriving DecidableEq

/-- `to_date` from main.py: the timestamp's date component. -/
def to_date (t : Timestamp) : Str := t.date

/-- One classifier output: a label and a confidence score. -/
structure ClassificationResult where
  label : Str
  score : ℚ
deriving DecidableEq

/-- `crisis_keywords` from main.py, verbatim.  Four phrases contain an
uppercase letter I and two contain the U+2019 apostrophe. -/
def crisis_keywords : List Str :=
  [ "hopeless".data, "worthless".data, "suicidal".data, "kill myself".data,
    "give up".data, "end it all".data, "can't go on".data, "no purpose".data,
    "don’t want to be here".data, "everything is meaningless".data,
    "better off without me".data, "I want to disappear".data,
    "I hate living".data, "I’m done with life".data, "I want it to end".data ]

/-- The keyword crisis check of main.py line 63: some phrase of
`crisis_keywords`, exactly as written, occurs in the lowercased text. -/
def keyword_crisis_check (user_text : Str) : Bool :=
  crisis_keywords.any fun word => containsSub (lowerStr user_text) word

/-- The risk labels treated as negative affect at main.py line 67. -/
def negativeLabels : List Str := [ "sadness".data, "anger".data, "fear".data ]

/-- A user's emergency-settings document. -/
structure EmergencySettings where
  code_word : Option Str
  emergency_contact : Str
  updated_at : Timestamp
deriving DecidableEq

/-- `set_emergency_code` from main.py lines 110-114: the document it
stores for a user (the code word is lowercased on write). -/
def set_emergency_code (code_word emergency_contact : Str) (now : Timestamp) :
    EmergencySettings :=
  { code_word := some (lowerStr code_word)
    emergency_contact := emergency_contact
    updated_at := now }

/-- One record of the `mood_entries` collection as `analyze_mood` writes it. -/
structure MoodEntry where
  user_id : Str
  text : Str
  emotion : Str
  confidence : ℚ
  crisis : Bool
  timestamp : Timestamp
  risk_score : ℚ
  risk_label : Str
  trigger_emergency : Bool
deriving DecidableEq

/-- The JSON body `analyze_mood` returns on success. -/
structure AnalyzeResponse where
  emotion : Str
  confidence : ℚ
  crisis : Bool
  risk_score : ℚ
  risk_label : Str
  trigger_emergency : Bool
deriving DecidableEq

/-- `analyze_mood` from main.py lines 50-100, on the path where `text`
and `user_id` are present in the request.  `emotionRes` and `riskRes`
are the outcomes of the two classifier calls (the emotion call is made
first, so a risk outcome is only inspected when the emotion call
succeeded); `settings` is the user's emergency-settings document or
absent; `store` is the `mood_entries` collection.  A classifier
exception reaches the handler's except-branch: the error is returned
and nothing is written. -/
def analyze_mood (user_text user_id : Str)
    (emotionRes riskRes : Except Str ClassificationResult)
    (settings : Option EmergencySettings)
    (store : List MoodEntry) (now : Timestamp) :
    Except Str AnalyzeResponse × List MoodEntry :=
  match emotionRes with
  | .error e => (.error e, store)
  | .ok result =>
    let emotion := result.label
    let confidence := round2 result.score
    let keyword_crisis := keyword_crisis_check user_text
    match riskRes with
    | .error e => (.error e, store)
    | .ok risk_result =>
      let risk_label := lowerStr risk_result.label
      let risk_score := risk_result.score
      let ai_crisis :=
        decide (risk_label ∈ negativeLabels) && decide ((85 : ℚ) / 100 < risk_score)
      let crisis_detected := keyword_crisis || ai_crisis
      let trigger_emergency :=
        match settings with
        | none => false
        | some user_settings =>
          match user_settings.code_word with
          | none => false
          | some code_word =>
            !code_word.isEmpty && containsSub (lowerStr user_text) code_word
      let entry : MoodEntry :=
        { user_id := user_id
          text := user_text
          emotion := emotion
          confidence := confidence
          crisis := crisis_detected
          timestamp := now
          risk_score := round2 risk_score
          risk_label := risk_label
          trigger_emergency := trigger_emergency }
      (.ok { emotion := emotion
             confidence := confidence
             crisis := crisis_detected
             risk_score := round2 risk_score
             risk_label := risk_label
             trigger_emergency := trigger_emergency },
       store ++ [entry])

/-- The crisis flag an `analyze_mood` outcome reports (false when the
call errored: an error response carries no crisis field). -/
def crisisOf (r : Except Str AnalyzeResponse × List MoodEntry) : Bool :=
  match r.1 with
  | .ok resp => resp.crisis
  | .error _ => false

/-- The trigger_emergency flag an `analyze_mood` outcome reports. -/
def triggerOf (r : Except Str AnalyzeResponse × List MoodEntry) : Bool :=
  match r.1 with
  | .ok resp => resp.trigger_emergency
  | .error _ => false

/-- The risk_score an `analyze_mood` outcome reports. -/
def respRiskOf (r : Except Str AnalyzeResponse × List MoodEntry) : ℚ :=
  match r.1 with
  | .ok resp => resp.risk_score
  | .error _ => 0

/-- Whether an `analyze_mood` outcome is a success response. -/
def isOkResp (r : Except Str AnalyzeResponse × List MoodEntry) : Bool :=
  match r.1 with
  | .ok _ => true
  | .error _ => false

/-- A stored mood document as `get_mood_trends` reads it back: the
fields it looks up with `.get`, each possibly missing. -/
structure MoodDoc where
  user_id : Str
  timestamp : Option Timestamp
  emotion : Option Str
  risk_score : Option ℚ
deriving DecidableEq

/-- A `MoodEntry` written by `analyze_mood`, viewed as a stored document. -/
def entryDoc (e : MoodEntry) : MoodDoc :=
  { user_id := e.user_id
    timestamp := some e.timestamp
    emotion := some e.emotion
    risk_score := some e.risk_score }

/-- One value of the trends mapping `get_mood_trends` returns.  The
emotion distribution is a mapping (emotion label to count), so it is
modelled as a function. -/
structure DailyTrend where
  average_risk_score : ℚ
  emotion_distribution : Str → Nat
  mood_swing : Bool

/-- The sample variance (the square of `statistics.stdev`) of a list of
scores, for lists of length at least two. -/
def sampleVar (l : List ℚ) : ℚ :=
  (l.map fun x => (x - l.sum / (l.length : ℚ)) ^ 2).sum / ((l.length : ℚ) - 1)

/-- The mood-swing test of main.py lines 150-152 in exact arithmetic.
The source computes `round(statistics.stdev(scores), 2) > 2`; over the
reals that comparison holds iff stdev ≥ 2.005, i.e. iff the sample
variance is at least 2.005² = 4.020025, which keeps the definition
computable (the equivalence with the rounded square-root form is proved
in `roundedSqrt_gt_two_iff` and carried into the mood-swing theorem). -/
def stdevRoundedExceedsTwo (l : List ℚ) : Bool :=
  decide ((4020025 : ℚ) / 1000000 ≤ sampleVar l)

/-- The per-date group that `get_mood_trends` builds at lines 132-140:
the user's documents carrying a timestamp whose date is `d` (documents
without a timestamp are skipped), reduced to the two fields kept —
`doc.get("emotion")` and `doc.get("risk_score", 0)`. -/
def groupFor (store : List MoodDoc) (user_id d : Str) :
    List (Option Str × ℚ) :=
  (store.filter fun doc => decide (doc.user_id = user_id)).filterMap fun doc =>
    match doc.timestamp with
    | none => none
    | some ts =>
      if to_date ts = d then some (doc.emotion, doc.risk_score.getD 0) else none

/-- The risk_score list of one date group (main.py line 144). -/
def riskScoresFor (store : List MoodDoc) (user_id d : Str) : List ℚ :=
  (groupFor store user_id d).map Prod.snd

/-- The emotion list of one date group (main.py line 145): entries whose
emotion is present and non-empty (Python truthiness). -/
def emotionsFor (store : List MoodDoc) (user_id d : Str) : List Str :=
  (groupFor store user_id d).filterMap fun p =>
    match p.1 with
    | none => none
    | some s => if s.isEmpty then none else some s

/-- `get_mood_trends` from main.py lines 122-158 at one date key: `none`
when no document of the user falls on that date (the trends dict has no
such key), otherwise the DailyTrend computed at lines 143-158. -/
def get_mood_trends (store : List MoodDoc) (user_id d : Str) : Option DailyTrend :=
  let g := groupFor store user_id d
  if g.isEmpty then none
  else
    let risk_scores := riskScoresFor store user_id d
    some
      { average_risk_score :=
          if risk_scores.isEmpty then 0
          else round2 (risk_scores.sum / (risk_scores.length : ℚ))
        emotion_distribution := fun s => (emotionsFor store user_id d).count s
        mood_swing :=
          if 2 ≤ risk_scores.length then stdevRoundedExceedsTwo risk_scores
          else false }

/-- The mood_swing flag at a date (false when the date has no group). -/
def moodSwingOf (store : List MoodDoc) (user_id d : Str) : Bool :=
  match get_mood_trends store user_id d with
  | some t => t.mood_swing
  | none => false

/-- The average_risk_score at a date (0 when the date has no group). -/
def averageOf (store : List MoodDoc) (user_id d : Str) : ℚ :=
  match get_mood_trends store user_id d with
  | some t => t.average_risk_score
  | none => 0

/-- One record of a user's check-in collection. -/
structure CheckInEntry where
  slider_value : ℚ
  tags : List Str
  note : Str
  timestamp : Timestamp
deriving DecidableEq

/-- `submit_checkin` from main.py lines 194-214.  The `data.get` lookups
give optional fields (`tags` defaulting to `[]` and `note` to `""`);
the request is rejected when `user_id` is missing or empty, when
`slider_value` is absent (`slider is None` — the number 0 passes), or
when the tags list is empty; otherwise the entry is appended to the
user's check-in collection. -/
def submit_checkin (user_id : Option Str) (slider_value : Option ℚ)
    (tags : Option (List Str)) (note : Option Str)
    (store : List CheckInEntry) (now : Timestamp) :
    Except Str Str × List CheckInEntry :=
  match slider_value with
  | none => (.error "Missing required fields".data, store)
  | some slider =>
    if (user_id.getD []).isEmpty || (tags.getD []).isEmpty then
      (.error "Missing required fields".data, store)
    else
      (.ok "Check-in saved successfully".data,
       store ++ [{ slider_value := slider
                   tags := tags.getD []
                   note := note.getD []
                   timestamp := now }])

/-! Helper lemmas about `analyze_mood` on two successful classifier calls:
each observable field of the outcome, read off definitionally. -/

lemma crisisOf_analyze (user_text user_id : Str) (er rr : ClassificationResult)
    (settings : Option EmergencySettings) (store : List MoodEntry) (now : Timestamp) :
    crisisOf (analyze_mood user_text user_id (.ok er) (.ok rr) settings store now) =
      (keyword_crisis_check user_text ||
        (decide (lowerStr rr.label ∈ negativeLabels) &&
          decide ((85 : ℚ) / 100 < rr.score))) := rfl

lemma triggerOf_analyze (user_text user_id : Str) (er rr : ClassificationResult)
    (settings : Option EmergencySettings) (store : List MoodEntry) (now : Timestamp) :
    triggerOf (analyze_mood user_text user_id (.ok er) (.ok rr) settings store now) =
      (match settings with
       | none => false
       | some user_settings =>
         match user_settings.code_word with
         | none => false
         | some code_word =>
           !code_word.isEmpty && containsSub (lowerStr user_text) code_word) := rfl

lemma respRiskOf_analyze (user_text user_id : Str) (er rr : ClassificationResult)
    (settings : Option EmergencySettings) (store : List MoodEntry) (now : Timestamp) :
    respRiskOf (analyze_mood user_text user_id (.ok er) (.ok rr) settings store now) =
      round2 rr.score := rfl

lemma isOkResp_analyze (user_text user_id : Str) (er rr : ClassificationResult)
    (settings : Option EmergencySettings) (store : List MoodEntry) (now : Timestamp) :
    isOkResp (analyze_mood user_text user_id (.ok er) (.ok rr) settings store now) =
      true := rfl

/-- C2: a lowercased risk label among {sadness, anger, fear} with
confidence strictly above 0.85 forces crisis = true whatever the text
and the emotion classification; at confidence exactly 0.85 the model
check does not fire and crisis equals the keyword check alone. -/
theorem c2_model_threshold (user_text user_id : Str)
    (er rr rr' : ClassificationResult)
    (settings : Option EmergencySettings) (store : List MoodEntry) (now : Timestamp)
    (hlab : lowerStr rr.label ∈ negativeLabels)
    (hgt : (85 : ℚ) / 100 < rr.score)
    (heq : rr'.score = 85 / 100) :
    crisisOf (analyze_mood user_text user_id (.ok er) (.ok rr) settings store now)
        = true ∧
    crisisOf (analyze_mood user_text user_id (.ok er) (.ok rr') settings store now)
        = keyword_crisis_check user_text := by
  constructor
  · rw [crisisOf_analyze]
    simp only [Bool.or_eq_true, Bool.and_eq_true, decide_eq_true_eq]
    exact Or.inr ⟨hlab, hgt⟩
  · rw [crisisOf_analyze, heq]
    rw [decide_eq_false (by norm_num : ¬((85 : ℚ) / 100 < 85 / 100))]
    simp

/-- C2 witness: label "sadness" at confidence 0.90 triggers; label
"fear" at exactly 0.85 leaves the decision to the keyword check. -/
theorem c2_model_threshold_holds :
    lowerStr "sadness".data ∈ negativeLabels ∧
    (85 : ℚ) / 100 < 9 / 10 ∧
    (crisisOf (analyze_mood "hello".data "u1".data
        (.ok { label := "joy".data, score := 1 / 2 })
        (.ok { label := "sadness".data, score := 9 / 10 })
        none [] { date := "2025-01-01".data, tod := 0 }) = true ∧
     crisisOf (analyze_mood "hello".data "u1".data
        (.ok { label := "joy".data, score := 1 / 2 })
        (.ok { label := "fear".data, score := 85 / 100 })
        none [] { date := "2025-01-01".data, tod := 0 })
        = keyword_crisis_check "hello".data) :=
  ⟨by decide, by norm_num,
   c2_model_threshold _ _ _ _ _ _ _ _ (by decide) (by norm_num) rfl⟩

/-- C4: when a classifier call fails, `analyze_mood` returns exactly the
propagated classifier error — the failure is surfaced, no MoodEntry is
appended to the store, and no crisis or trigger_emergency value is
fabricated (the outcome carries no such fields).  The first conjunct is
the emotion call failing, the second the risk call failing after a
successful emotion call. -/
theorem c4_classifier_failure_propagates (user_text user_id e : Str)
    (riskRes : Except Str ClassificationResult) (er : ClassificationResult)
    (settings : Option EmergencySettings) (store : List MoodEntry) (now : Timestamp) :
    analyze_mood user_text user_id (.error e) riskRes settings store now
        = (.error e, store) ∧
    analyze_mood user_text user_id (.ok er) (.error e) settings store now
        = (.error e, store) :=
  ⟨rfl, rfl⟩

/-- C1 (refuting the claim as stated): the text "I want to disappear" is
itself a phrase of `crisis_keywords` — so it contains a crisis phrase
under case-insensitive comparison — yet with a risk classification that
does not fire the model check, `analyze_mood` reports crisis = false:
main.py line 63 tests the raw phrase against the lowercased text, so a
phrase containing an uppercase I can never match. -/
theorem c1_uppercase_phrase_never_matches :
    "I want to disappear".data ∈ crisis_keywords ∧
    containsSub (lowerStr "I want to disappear".data)
      (lowerStr "I want to disappear".data) = true ∧
    crisisOf (analyze_mood "I want to disappear".data "u1".data
        (.ok { label := "joy".data, score := 99 / 100 })
        (.ok { label := "joy".data, score := 99 / 100 })
        none [] { date := "2025-01-01".data, tod := 0 }) = false := by
  refine ⟨by decide, by decide, ?_⟩
  rw [crisisOf_analyze]
  simp only [Bool.or_eq_false_iff, Bool.and_eq_false_iff, decide_eq_false_iff_not]
  exact ⟨by decide, Or.inl (by decide)⟩

/-- C9: the model check compares the unrounded confidence with 0.85
while the stored and returned risk_score is rounded to two decimals:
confidences 0.849 and 0.851 both round to 0.85, and with risk label
"sadness" on neutral text the first yields crisis = false and the
second crisis = true, while both outcomes report (and store)
risk_score = 0.85. -/
theorem c9_crisis_uses_unrounded_confidence :
    round2 (849 / 1000) = 85 / 100 ∧
    round2 (851 / 1000) = 85 / 100 ∧
    crisisOf (analyze_mood "okay".data "u1".data
        (.ok { label := "joy".data, score := 1 / 2 })
        (.ok { label := "sadness".data, score := 849 / 1000 })
        none [] { date := "2025-01-03".data, tod := 0 }) = false ∧
    crisisOf (analyze_mood "okay".data "u1".data
        (.ok { label := "joy".data, score := 1 / 2 })
        (.ok { label := "sadness".data, score := 851 / 1000 })
        none [] { date := "2025-01-03".data, tod := 0 }) = true ∧
    respRiskOf (analyze_mood "okay".data "u1".data
        (.ok { label := "joy".data, score := 1 / 2 })
        (.ok { label := "sadness".data, score := 849 / 1000 })
        none [] { date := "2025-01-03".data, tod := 0 }) = 85 / 100 ∧
    respRiskOf (analyze_mood "okay".data "u1".data
        (.ok { label := "joy".data, score := 1 / 2 })
        (.ok { label := "sadness".data, score := 851 / 1000 })
        none [] { date := "2025-01-03".data, tod := 0 }) = 85 / 100 := by
  refine ⟨by norm_num [round2, round_eq], by norm_num [round2, round_eq], ?_, ?_, ?_, ?_⟩
  · rw [crisisOf_analyze]
    simp only [Bool.or_eq_false_iff, Bool.and_eq_false_iff, decide_eq_false_iff_not]
    exact ⟨by decide, Or.inr (by norm_num)⟩
  · rw [crisisOf_analyze]
    simp only [Bool.or_eq_true, Bool.and_eq_true, decide_eq_true_eq]
    exact Or.inr ⟨by decide, by norm_num⟩
  · rw [respRiskOf_analyze]
    norm_num [round2, round_eq]
  · rw [respRiskOf_analyze]
    norm_num [round2, round_eq]

/-- C3: with emergency settings configured through `set_emergency_code`,
trigger_emergency is true iff the configured code word is non-empty and
occurs case-insensitively in the input text (the stored word is the
lowercased configured word, and it is matched against the lowercased
text); with no settings document for the user the analysis succeeds —
no error — with trigger_emergency = false. -/
theorem c3_emergency_trigger (user_text user_id code_word contact : Str)
    (er rr : ClassificationResult) (store : List MoodEntry) (t0 now : Timestamp) :
    (triggerOf (analyze_mood user_text user_id (.ok er) (.ok rr)
        (some (set_emergency_code code_word contact t0)) store now) = true ↔
      code_word ≠ [] ∧
        containsSub (lowerStr user_text) (lowerStr code_word) = true) ∧
    (isOkResp (analyze_mood user_text user_id (.ok er) (.ok rr) none store now)
        = true ∧
     triggerOf (analyze_mood user_text user_id (.ok er) (.ok rr) none store now)
        = false) := by
  refine ⟨?_, isOkResp_analyze .., by rw [triggerOf_analyze]⟩
  rw [triggerOf_analyze]
  show (!(lowerStr code_word).isEmpty &&
      containsSub (lowerStr user_text) (lowerStr code_word)) = true ↔ _
  simp [List.isEmpty_iff, lowerStr, List.map_eq_nil_iff]

/-- C8: an empty tags collection (whether the key is present as an empty
list or absent, defaulting to an empty list) makes `submit_checkin`
return the validation error and leave the check-in store unchanged. -/
theorem c8_empty_tags_rejected (user_id : Option Str) (slider_value : Option ℚ)
    (tags : Option (List Str)) (note : Option Str) (store : List CheckInEntry)
    (now : Timestamp) (h : tags.getD [] = []) :
    (submit_checkin user_id slider_value tags note store now).1
        = .error "Missing required fields".data ∧
    (submit_checkin user_id slider_value tags note store now).2 = store := by
  cases slider_value <;> simp [submit_checkin, h]

/-- C8 witness: a request with an explicit empty tags list is rejected
and appends nothing. -/
theorem c8_empty_tags_rejected_holds :
    (some ([] : List Str)).getD [] = [] ∧
    ((submit_checkin (some "u1".data) (some (7 / 10)) (some []) none []
        { date := "2025-01-04".data, tod := 0 }).1
          = .error "Missing required fields".data ∧
     (submit_checkin (some "u1".data) (some (7 / 10)) (some []) none []
        { date := "2025-01-04".data, tod := 0 }).2 = []) :=
  ⟨rfl, c8_empty_tags_rejected _ _ _ _ _ _ rfl⟩

/-- C10: `submit_checkin` rejects a request exactly when the user id is
missing or empty, the slider value is absent, or the tags list is empty
— and in particular a slider value of 0 with a non-empty user id and
non-empty tags is persisted, not treated as a missing field. -/
theorem c10_slider_zero_accepted (user_id : Option Str) (slider_value : Option ℚ)
    (tags : Option (List Str)) (note : Option Str) (store : List CheckInEntry)
    (now : Timestamp) :
    ((submit_checkin user_id slider_value tags note store now).1
        = .error "Missing required fields".data ↔
      user_id.getD [] = [] ∨ slider_value = none ∨ tags.getD [] = []) ∧
    (∀ u ts, u ≠ [] → ts ≠ [] →
      submit_checkin (some u) (some 0) (some ts) note store now
        = (.ok "Check-in saved successfully".data,
           store ++ [{ slider_value := 0
                       tags := ts
                       note := note.getD []
                       timestamp := now }])) := by
  constructor
  · cases slider_value with
    | none => simp [submit_checkin]
    | some s =>
      simp only [submit_checkin]
      by_cases hcond :
          ((user_id.getD []).isEmpty || (tags.getD [] : List Str).isEmpty) = true
      · rw [if_pos hcond]
        simp only [Bool.or_eq_true, List.isEmpty_iff] at hcond
        exact iff_of_true rfl
          (hcond.elim (fun hh => Or.inl hh) fun hh => Or.inr (Or.inr hh))
      · rw [if_neg hcond]
        simp only [Bool.or_eq_true, List.isEmpty_iff] at hcond
        push_neg at hcond
        exact iff_of_false (by simp) (by simp [hcond.1, hcond.2])
  · intro u ts hu hts
    match u, ts with
    | [], _ => exact absurd rfl hu
    | _ :: _, [] => exact absurd rfl hts
    | a :: u', b :: ts' => simp [submit_checkin]

/-- Rounding to two decimals is idempotent. -/
lemma round2_round2 (q : ℚ) : round2 (round2 q) = round2 q := by
  unfold round2
  rw [div_mul_cancel₀ _ (by norm_num : (100 : ℚ) ≠ 0)]
  rw [round_intCast]

/-- C7: a date group holding exactly one entry averages to that entry's
own risk_score: the stored score already carries the two-decimal
rounding applied at write time (main.py line 85), and rounding the
one-element mean again does not change it. -/
theorem c7_single_entry_average (e : MoodEntry) (raw : ℚ)
    (h : e.risk_score = round2 raw) :
    averageOf [entryDoc e] e.user_id (to_date e.timestamp) = e.risk_score := by
  simp only [averageOf, get_mood_trends, groupFor, riskScoresFor, emotionsFor, entryDoc,
    List.filter, List.filterMap, to_date]
  simp [h, round2_round2]

/-- C7 witness: a single stored entry with risk_score 0.5 (= round2 0.5)
yields average_risk_score 0.5 on its own day. -/
theorem c7_single_entry_average_holds :
    ((1 : ℚ) / 2 = round2 (1 / 2)) ∧
    averageOf
      [entryDoc ⟨"u1".data, "t".data, "joy".data, 1 / 2, false,
        ⟨"2025-01-05".data, 3⟩, 1 / 2, "joy".data, false⟩]
      "u1".data "2025-01-05".data = 1 / 2 :=
  ⟨by norm_num [round2, round_eq],
   c7_single_entry_average _ (1 / 2) (by norm_num [round2, round_eq])⟩

/-- Over the reals, the source's mood-swing comparison
"round(√v · 100)/100 > 2" holds exactly when v ≥ 2.005² = 4.020025. -/
lemma roundedSqrt_gt_two_iff (v : ℚ) :
    ((2 : ℝ) < ((round (Real.sqrt (v : ℝ) * 100) : ℤ) : ℝ) / 100) ↔
      (4020025 : ℚ) / 1000000 ≤ v := by
  rw [lt_div_iff₀ (by norm_num : (0 : ℝ) < 100)]
  rw [show (2 : ℝ) * 100 = ((200 : ℤ) : ℝ) by norm_num]
  rw [Int.cast_lt, Int.lt_iff_add_one_le]
  rw [show (200 : ℤ) + 1 = 201 from rfl]
  rw [round_eq, Int.le_floor]
  rw [show ((201 : ℤ) : ℝ) = 201 by norm_num]
  have hiff : (401 / 200 : ℝ) ≤ Real.sqrt (v : ℝ) ↔ (4020025 : ℚ) / 1000000 ≤ v := by
    rw [Real.le_sqrt' (by norm_num : (0 : ℝ) < 401 / 200)]
    rw [show ((401 / 200 : ℝ)) ^ 2 = (((4020025 : ℚ) / 1000000 : ℚ) : ℝ) by
      push_cast
      norm_num]
    exact_mod_cast Iff.rfl
  rw [← hiff]
  constructor <;> intro hcmp <;> linarith

/-- `mood_swing` at any date equals the guarded variance test on the
date group's risk scores (in particular, false for an absent group). -/
lemma moodSwingOf_eq (store : List MoodDoc) (user_id d : Str) :
    moodSwingOf store user_id d =
      if 2 ≤ (riskScoresFor store user_id d).length
      then stdevRoundedExceedsTwo (riskScoresFor store user_id d)
      else false := by
  unfold moodSwingOf get_mood_trends
  rcases hG : groupFor store user_id d with _ | ⟨p, l⟩
  · have hrs : riskScoresFor store user_id d = [] := by
      unfold riskScoresFor
      rw [hG]
      rfl
    simp [hrs]
  · simp [hG]

/-- C5: the mood_swing flag of a date group is set iff the group has at
least two risk scores and the two-decimal rounding of their sample
standard deviation strictly exceeds 2; a group with exactly one entry
never sets it. -/
theorem c5_mood_swing_iff (store : List MoodDoc) (user_id d : Str) :
    (moodSwingOf store user_id d = true ↔
      2 ≤ (riskScoresFor store user_id d).length ∧
      (2 : ℝ) <
        ((round (Real.sqrt ((sampleVar (riskScoresFor store user_id d) : ℚ) : ℝ)
            * 100) : ℤ) : ℝ) / 100) ∧
    ((riskScoresFor store user_id d).length = 1 →
      moodSwingOf store user_id d = false) := by
  rw [moodSwingOf_eq]
  constructor
  · by_cases h2 : 2 ≤ (riskScoresFor store user_id d).length
    · rw [if_pos h2]
      unfold stdevRoundedExceedsTwo
      rw [decide_eq_true_eq, roundedSqrt_gt_two_iff]
      exact (and_iff_right h2).symm
    · rw [if_neg h2]
      simp [h2]
  · intro h1
    rw [if_neg (by omega)]

/-- Two lists that are permutations of one another are empty together. -/
lemma perm_isEmpty_eq {α : Type} {l l' : List α} (h : l.Perm l') :
    l.isEmpty = l'.isEmpty := by
  rw [Bool.eq_iff_iff, List.isEmpty_iff_length_eq_zero,
    List.isEmpty_iff_length_eq_zero, h.length_eq]

/-- C6: trend aggregation is order-independent — permuting the stored
document collection leaves the trends mapping unchanged at every date:
same average_risk_score, same emotion_distribution, same mood_swing. -/
theorem c6_trends_order_independent (store store' : List MoodDoc)
    (user_id d : Str) (h : store.Perm store') :
    get_mood_trends store user_id d = get_mood_trends store' user_id d := by
  have hp : (groupFor store user_id d).Perm (groupFor store' user_id d) := by
    unfold groupFor
    exact (h.filter _).filterMap _
  have hrs : (riskScoresFor store user_id d).Perm (riskScoresFor store' user_id d) :=
    hp.map _
  have hlen : (riskScoresFor store user_id d).length
      = (riskScoresFor store' user_id d).length := hrs.length_eq
  have hsum : (riskScoresFor store user_id d).sum
      = (riskScoresFor store' user_id d).sum := hrs.sum_eq
  have hvar : sampleVar (riskScoresFor store user_id d)
      = sampleVar (riskScoresFor store' user_id d) := by
    unfold sampleVar
    rw [hlen, hsum]
    congr 1
    apply List.Perm.sum_eq
    exact hrs.map _
  have havg : (if (riskScoresFor store user_id d).isEmpty = true then (0 : ℚ)
      else round2 ((riskScoresFor store user_id d).sum
        / ((riskScoresFor store user_id d).length : ℚ)))
      = (if (riskScoresFor store' user_id d).isEmpty = true then 0
      else round2 ((riskScoresFor store' user_id d).sum
        / ((riskScoresFor store' user_id d).length : ℚ))) := by
    rw [perm_isEmpty_eq hrs, hsum, hlen]
  have hsw : (if 2 ≤ (riskScoresFor store user_id d).length
      then stdevRoundedExceedsTwo (riskScoresFor store user_id d) else false)
      = (if 2 ≤ (riskScoresFor store' user_id d).length
      then stdevRoundedExceedsTwo (riskScoresFor store' user_id d) else false) := by
    unfold stdevRoundedExceedsTwo
    rw [hlen, hvar]
  have hem : (emotionsFor store user_id d).Perm (emotionsFor store' user_id d) :=
    hp.filterMap _
  simp only [get_mood_trends]
  rw [perm_isEmpty_eq hp]
  by_cases hE : (groupFor store' user_id d).isEmpty
  · rw [if_pos hE, if_pos hE]
  · rw [if_neg hE, if_neg hE]
    rw [havg, hsw]
    have hdist : (fun s => (emotionsFor store user_id d).count s)
        = fun s => (emotionsFor store' user_id d).count s := by
      funext s
      exact hem.countP_eq _
    rw [hdist]

/-- Two stored documents of one user on one day, in both orders (for the
order-independence witness). -/
def docA : MoodDoc :=
  ⟨"u1".data, some ⟨"2025-01-06".data, 1⟩, some "joy".data, some 1⟩

/-- Companion document to `docA`. -/
def docB : MoodDoc :=
  ⟨"u1".data, some ⟨"2025-01-06".data, 2⟩, some "fear".data, some 0⟩

/-- C6 witness: swapping two stored documents leaves the day's trend
unchanged. -/
theorem c6_trends_order_independent_holds :
    ([docA, docB] : List MoodDoc).Perm [docB, docA] ∧
    get_mood_trends [docA, docB] "u1".data "2025-01-06".data
      = get_mood_trends [docB, docA] "u1".data "2025-01-06".data :=
  ⟨List.Perm.swap docB docA [],
   c6_trends_order_independent _ _ _ _ (List.Perm.swap docB docA [])⟩

/-- `isPre` decides the prefix relation. -/
lemma isPre_iff (p t : Str) : isPre p t = true ↔ p <+: t := by
  induction p generalizing t with
  | nil => simp [isPre]
  | cons a p ih =>
    cases t with
    | nil => simp [isPre]
    | cons b t =>
      rw [isPre, Bool.and_eq_true, beq_iff_eq, List.cons_prefix_cons, ih]

/-- `containsSub` decides the substring (infix) relation: it is Python's
`p in t`. -/
lemma containsSub_iff (t p : Str) : containsSub t p = true ↔ p <:+: t := by
  induction t with
  | nil =>
    rw [containsSub, List.infix_nil, Bool.or_eq_true, isPre_iff, List.prefix_nil]
    simp
  | cons b t ih =>
    rw [containsSub, Bool.or_eq_true, isPre_iff, ih, List.infix_cons_iff]
